import Mathlib

/-!
Verification of the FinTech personal financial planning application.

The development shallowly embeds, over `ℚ`:
* the calculation formulas of the Technical Requirements Specification
  (TRS, `src/unnamed/part_000`) — age, future cost, corpus, SIP gap,
  cash-flow totals and dashboard ratios, and the logical validations;
* the client-side Zustand store `useFinancialStore`
  (`src/frontend/app/(auth)/register/page.tsx`, store section): its full
  state shape, its initial state, and each of its mutation actions as a
  function `FullState → FullState`;
* the age helper of `src/frontend/components/widgets/FamilyDetailsForm.tsx`.

Dates are modelled as integer day numbers (difference of two dates = the
`.days` of the Python `timedelta` / the millisecond difference of two JS
`Date`s divided by 86 400 000); JS / Python floats are modelled as `ℚ`.
-/

namespace FinTech

/-! ## TRS §3.1 Time-based calculations -/

/-- TRS `calculate_age` (part_000 lines 52–54): fractional years,
`(today − dob).days / 365.25`, not floored.  Dates are day numbers. -/
def calculate_age (today dob : ℤ) : ℚ :=
  ((today - dob : ℤ) : ℚ) / 365.25

/-- Frontend `calculateAge` (FamilyDetailsForm.tsx lines 55–61):
`Math.floor((today.getTime() − birthDate.getTime()) / (365.25*24*60*60*1000))`.
Arguments are millisecond timestamps. -/
def calculateAge (today_ms dob_ms : ℤ) : ℤ :=
  ⌊(((today_ms - dob_ms : ℤ) : ℚ)) / (365.25 * 24 * 60 * 60 * 1000)⌋

/-- TRS §3.1: years to a DATE goal, `(TargetDate − TODAY) / 365.25` in days. -/
def yearsToGoalDate (targetDate today : ℤ) : ℚ :=
  ((targetDate - today : ℤ) : ℚ) / 365.25

/-- TRS §5.2 logical validation 6: `For Goals with DATE: TargetDate > TODAY`. -/
def dateGoalValid (targetDate today : ℤ) : Bool :=
  decide (today < targetDate)

/-- Modelled from the spec: the engine component that assigns the
`PAST_DUE` status to goals is not part of the sources (only the report
page displays `goal.status`); §4.2 of the specification states the rule
"a goal whose resolved years-to-goal ≤ 0 is flagged `PAST_DUE` and
excluded from corpus/SIP arithmetic". -/
def pastDue (yearsToGoal : ℚ) : Bool :=
  decide (yearsToGoal ≤ 0)

/-! ## TRS §3.2 Future value -/

/-- TRS `calculate_future_cost` (part_000 lines 95–96):
`current_cost * ((1 + inflation) ** years)`.  The exponent is modelled as
a natural number of years (the TRS worked example uses 12). -/
def calculate_future_cost (current_cost inflation : ℚ) (years : ℕ) : ℚ :=
  current_cost * (1 + inflation) ^ years

/-! ## TRS §3.3 Retirement corpus -/

/-- TRS `calculate_corpus_required` (part_000 lines 141–151):
straight-line product when the real rate is zero, otherwise the
annuity-immediate present value `me * (1 - (1+r)^(-n)) / r`. -/
def calculate_corpus_required (monthly_expense : ℚ) (pension_months : ℤ)
    (real_rate : ℚ) : ℚ :=
  if real_rate = 0 then
    monthly_expense * (pension_months : ℚ)
  else
    monthly_expense * ((1 - (1 + real_rate) ^ (-pension_months)) / real_rate)

/-! ## TRS §3.4 SIP requirement -/

/-- TRS `calculate_extra_sip_required` (part_000 lines 219–234): zero when
the gap or the horizon is non-positive; otherwise the annuity-due PMT at
the monthly rate `annual_roi / 12`, degenerating to `gap / n` when the
monthly rate is not positive. -/
def calculate_extra_sip_required (retirement_gap : ℚ) (months_to_retire : ℤ)
    (annual_roi : ℚ) : ℚ :=
  if retirement_gap ≤ 0 ∨ months_to_retire ≤ 0 then 0
  else
    let monthly_rate := annual_roi / 12
    if 0 < monthly_rate then
      (retirement_gap * monthly_rate) /
        (((1 + monthly_rate) ^ months_to_retire - 1) * (1 + monthly_rate))
    else
      retirement_gap / (months_to_retire : ℚ)

/-! ## TRS §3.5 Cash-flow totals and §3.6 dashboard ratios -/

/-- TRS §3.5: `TotalOutflows = TotalEssential + TotalLifestyle + TotalEMIs
+ TotalInvestments`. -/
def totalOutflows (essential lifestyle emis investments : ℚ) : ℚ :=
  essential + lifestyle + emis + investments

/-- TRS §3.5: `Leftover = TotalInflow − TotalOutflows` (may be negative). -/
def leftover (total_inflow total_outflows : ℚ) : ℚ :=
  total_inflow - total_outflows

/-- TRS §3.6: `SavingsRate% = (Leftover / TotalInflow) × 100`. -/
def savingsRatePct (lo total_inflow : ℚ) : ℚ := lo / total_inflow * 100

/-- TRS §3.6: `EMIBurden% = (TotalEMIs / TotalInflow) × 100`. -/
def emiBurdenPct (emis total_inflow : ℚ) : ℚ := emis / total_inflow * 100

/-- TRS §3.6: `InvestmentRate% = (TotalInvestments / TotalInflow) × 100`. -/
def investmentRatePct (investments total_inflow : ℚ) : ℚ :=
  investments / total_inflow * 100

/-- TRS §3.6: `EssentialExpense% = (TotalEssential / TotalInflow) × 100`. -/
def essentialExpensePct (essential total_inflow : ℚ) : ℚ :=
  essential / total_inflow * 100

/-- TRS §3.6: `LifestyleExpense% = (TotalLifestyle / TotalInflow) × 100`. -/
def lifestyleExpensePct (lifestyle total_inflow : ℚ) : ℚ :=
  lifestyle / total_inflow * 100

/-! ## Store data model (`useFinancialStore`, register/page.tsx lines 84–283)

The six data sections of the store (the keys of `getPayload`).  The
action fields of `FullState` are modelled below as functions
`FullState → FullState`; the opaque `analysisResults: any` cache and the
random `generateId` are outside the data model (fresh ids are passed as
explicit arguments). -/

inductive RelationshipType where
  | PRIMARY | SPOUSE | CHILD | FATHER | MOTHER
  deriving DecidableEq

inductive TargetType where
  | AGE | DATE
  deriving DecidableEq

inductive InvestmentType where
  | MF | Stock | FD | RD | Chit | Other
  deriving DecidableEq

inductive LiabilityType where
  | Home | Car | Personal | Other
  deriving DecidableEq

inductive AccountType where
  | Savings | Current | FD | RD
  deriving DecidableEq

inductive PolicyType where
  | Term | Endowment | ULIP | WholeLife | Health | Other
  deriving DecidableEq

structure FamilyMember where
  id : String
  name : String
  dob : Option String := none
  pan : Option String := none
  relation_type : RelationshipType
  expected_retirement_age : Option ℚ := none
  deriving DecidableEq

structure ContactDetails where
  mobile : Option String := none
  email : Option String := none
  designation : Option String := none
  organisation : Option String := none
  deriving DecidableEq

structure PrimaryUser where
  name : String
  dob : String
  retire_age : ℚ
  pension_till_age : ℚ
  life_expectancy : ℚ
  deriving DecidableEq

structure Spouse where
  name : String
  dob : String
  working_status : Bool
  retirement_age : Option ℚ := none
  pension_till_age : Option ℚ := none
  deriving DecidableEq

structure UserProfile where
  primary : PrimaryUser
  spouse : Option Spouse := none
  family_members : List FamilyMember
  contact_details : Option ContactDetails := none
  address : Option String := none
  deriving DecidableEq

/-- `target_value: string | number`. -/
structure Goal where
  id : String
  person_name : Option String := none
  name : String
  current_cost : ℚ
  target_type : TargetType
  target_value : Sum String ℚ
  deriving DecidableEq

structure RealEstateAsset where
  id : Option String := none
  person_name : Option String := none
  name : String
  present_value : ℚ
  roi : Option ℚ := none
  remarks : Option String := none
  deriving DecidableEq

structure BankAccount where
  id : Option String := none
  person_name : Option String := none
  bank_name : String
  account_type : AccountType
  balance : ℚ
  interest_rate : Option ℚ := none
  maturity_date : Option String := none
  remarks : Option String := none
  deriving DecidableEq

structure InvestmentAsset where
  id : Option String := none
  type : InvestmentType
  invested_amount : Option ℚ := none
  current_value : ℚ
  monthly_sip : ℚ
  start_date : Option String := none
  end_date : Option String := none
  remarks : Option String := none
  deriving DecidableEq

structure InsurancePolicy where
  id : Option String := none
  person_name : Option String := none
  policy_name : String
  policy_type : PolicyType
  sum_assured : ℚ
  premium : ℚ
  premium_frequency : String
  ppt : Option ℚ := none
  start_date : Option String := none
  end_date : Option String := none
  maturity_amount : Option ℚ := none
  remarks : Option String := none
  deriving DecidableEq

structure Assets where
  real_estate : List RealEstateAsset
  bank_accounts : List BankAccount
  investments : List InvestmentAsset
  insurance_policies : List InsurancePolicy
  liquid_cash : ℚ
  deriving DecidableEq

structure Liability where
  id : Option String := none
  type : LiabilityType
  total_loan_amount : Option ℚ := none
  outstanding : ℚ
  emi : ℚ
  interest_rate : ℚ
  tenure_months : ℚ
  deriving DecidableEq

structure EssentialExpenses where
  house_rent : ℚ
  maintenance : ℚ
  property_tax : ℚ
  utilities : ℚ
  groceries : ℚ
  transportation : ℚ
  medical_expenses : ℚ
  children_school_fees : ℚ
  insurance_premiums : ℚ
  other : ℚ
  deriving DecidableEq

structure LifestyleExpenses where
  maid_expense : ℚ
  shopping : ℚ
  travel : ℚ
  dining_entertainment : ℚ
  other : ℚ
  deriving DecidableEq

structure InvestmentOutflows where
  mutual_fund_sip : ℚ
  stock_sip : ℚ
  recurring_deposit : ℚ
  chit_fund : ℚ
  other : ℚ
  deriving DecidableEq

structure Inflows where
  primary_income : ℚ
  spouse_income : ℚ
  rental_income : ℚ
  additional_income : ℚ
  other : ℚ
  deriving DecidableEq

structure Outflows where
  essential : ℚ
  lifestyle : ℚ
  essential_details : Option EssentialExpenses := none
  lifestyle_details : Option LifestyleExpenses := none
  investment_details : Option InvestmentOutflows := none
  linked_emis : ℚ
  linked_investments : ℚ
  deriving DecidableEq

structure CashFlow where
  inflows : Inflows
  outflows : Outflows
  deriving DecidableEq

structure Assumptions where
  inflation : ℚ
  child_inflation : ℚ
  pre_retire_roi : ℚ
  post_retire_roi : ℚ
  deriving DecidableEq

structure FullState where
  user_profile : UserProfile
  goals : List Goal
  assets : Assets
  liabilities : List Liability
  cash_flow : CashFlow
  assumptions : Assumptions
  deriving DecidableEq

/-- `initialState` (register/page.tsx lines 331–362). -/
def initialState : FullState where
  user_profile :=
    { primary := { name := "", dob := "", retire_age := 60,
                   pension_till_age := 85, life_expectancy := 85 }
      family_members := [] }
  goals := []
  assets :=
    { real_estate := []
      bank_accounts := []
      investments := []
      insurance_policies := []
      liquid_cash := 0 }
  liabilities := []
  cash_flow :=
    { inflows :=
        { primary_income := 0, spouse_income := 0, rental_income := 0,
          additional_income := 0, other := 0 }
      outflows :=
        { essential := 0, lifestyle := 0, linked_emis := 0,
          linked_investments := 0 } }
  assumptions :=
    { inflation := 6/100, child_inflation := 10/100,
      pre_retire_roi := 12/100, post_retire_roi := 8/100 }

/-! ## Store actions (register/page.tsx lines 366–595)

TypeScript `Partial<T>` arguments become patch structures whose fields are
`Option`s: an absent key leaves the old value, a present key overrides it
(the spread `{ ...old, ...patch }`).  `x.id || generateId()` becomes
`presentId x.id fresh`, with the freshly generated id an argument. -/

structure PrimaryUserPatch where
  name : Option String := none
  dob : Option String := none
  retire_age : Option ℚ := none
  pension_till_age : Option ℚ := none
  life_expectancy : Option ℚ := none

structure GoalPatch where
  id : Option String := none
  person_name : Option (Option String) := none
  name : Option String := none
  current_cost : Option ℚ := none
  target_type : Option TargetType := none
  target_value : Option (Sum String ℚ) := none

structure InflowsPatch where
  primary_income : Option ℚ := none
  spouse_income : Option ℚ := none
  rental_income : Option ℚ := none
  additional_income : Option ℚ := none
  other : Option ℚ := none

structure OutflowsPatch where
  essential : Option ℚ := none
  lifestyle : Option ℚ := none
  essential_details : Option (Option EssentialExpenses) := none
  lifestyle_details : Option (Option LifestyleExpenses) := none
  investment_details : Option (Option InvestmentOutflows) := none
  linked_emis : Option ℚ := none
  linked_investments : Option ℚ := none

structure CashFlowQPatch where
  inflows : Option Inflows := none
  outflows : Option Outflows := none

structure EssentialExpensesPatch where
  house_rent : Option ℚ := none
  maintenance : Option ℚ := none
  property_tax : Option ℚ := none
  utilities : Option ℚ := none
  groceries : Option ℚ := none
  transportation : Option ℚ := none
  medical_expenses : Option ℚ := none
  children_school_fees : Option ℚ := none
  insurance_premiums : Option ℚ := none
  other : Option ℚ := none

structure LifestyleExpensesPatch where
  maid_expense : Option ℚ := none
  shopping : Option ℚ := none
  travel : Option ℚ := none
  dining_entertainment : Option ℚ := none
  other : Option ℚ := none

structure AssumptionsPatch where
  inflation : Option ℚ := none
  child_inflation : Option ℚ := none
  pre_retire_roi : Option ℚ := none
  post_retire_roi : Option ℚ := none

/-- `x || generateId()`: an absent or empty id is replaced by the fresh one. -/
def presentIdStr (id fresh : String) : String :=
  if id = "" then fresh else id

/-- `x.id || generateId()` for optional ids. -/
def presentId (id : Option String) (fresh : String) : String :=
  presentIdStr (id.getD "") fresh

/-- `{ ...state.user_profile.primary, ...primary }`. -/
def mergePrimaryUser (cur : PrimaryUser) (p : PrimaryUserPatch) : PrimaryUser where
  name := p.name.getD cur.name
  dob := p.dob.getD cur.dob
  retire_age := p.retire_age.getD cur.retire_age
  pension_till_age := p.pension_till_age.getD cur.pension_till_age
  life_expectancy := p.life_expectancy.getD cur.life_expectancy

/-- `{ ...g, ...updates }`. -/
def mergeGoal (cur : Goal) (p : GoalPatch) : Goal where
  id := p.id.getD cur.id
  person_name := p.person_name.getD cur.person_name
  name := p.name.getD cur.name
  current_cost := p.current_cost.getD cur.current_cost
  target_type := p.target_type.getD cur.target_type
  target_value := p.target_value.getD cur.target_value

/-- `{ ...state.cash_flow.inflows, ...inflows }`. -/
def mergeInflows (cur : Inflows) (p : InflowsPatch) : Inflows where
  primary_income := p.primary_income.getD cur.primary_income
  spouse_income := p.spouse_income.getD cur.spouse_income
  rental_income := p.rental_income.getD cur.rental_income
  additional_income := p.additional_income.getD cur.additional_income
  other := p.other.getD cur.other

/-- `{ ...state.cash_flow.outflows, ...outflows }`. -/
def mergeOutflows (cur : Outflows) (p : OutflowsPatch) : Outflows where
  essential := p.essential.getD cur.essential
  lifestyle := p.lifestyle.getD cur.lifestyle
  essential_details := p.essential_details.getD cur.essential_details
  lifestyle_details := p.lifestyle_details.getD cur.lifestyle_details
  investment_details := p.investment_details.getD cur.investment_details
  linked_emis := p.linked_emis.getD cur.linked_emis
  linked_investments := p.linked_investments.getD cur.linked_investments

/-- `{ ...state.cash_flow, ...newCashFlow }`. -/
def mergeCashFlow (cur : CashFlow) (p : CashFlowQPatch) : CashFlow where
  inflows := p.inflows.getD cur.inflows
  outflows := p.outflows.getD cur.outflows

/-- `{ ...currentDetails, ...details }` for essential expense details. -/
def mergeEssentialDetails (cur : EssentialExpenses) (p : EssentialExpensesPatch) :
    EssentialExpenses where
  house_rent := p.house_rent.getD cur.house_rent
  maintenance := p.maintenance.getD cur.maintenance
  property_tax := p.property_tax.getD cur.property_tax
  utilities := p.utilities.getD cur.utilities
  groceries := p.groceries.getD cur.groceries
  transportation := p.transportation.getD cur.transportation
  medical_expenses := p.medical_expenses.getD cur.medical_expenses
  children_school_fees := p.children_school_fees.getD cur.children_school_fees
  insurance_premiums := p.insurance_premiums.getD cur.insurance_premiums
  other := p.other.getD cur.other

/-- `{ ...currentDetails, ...details }` for lifestyle expense details. -/
def mergeLifestyleDetails (cur : LifestyleExpenses) (p : LifestyleExpensesPatch) :
    LifestyleExpenses where
  maid_expense := p.maid_expense.getD cur.maid_expense
  shopping := p.shopping.getD cur.shopping
  travel := p.travel.getD cur.travel
  dining_entertainment := p.dining_entertainment.getD cur.dining_entertainment
  other := p.other.getD cur.other

/-- `{ ...state.assumptions, ...newAssumptions }`. -/
def mergeAssumptions (cur : Assumptions) (p : AssumptionsPatch) : Assumptions where
  inflation := p.inflation.getD cur.inflation
  child_inflation := p.child_inflation.getD cur.child_inflation
  pre_retire_roi := p.pre_retire_roi.getD cur.pre_retire_roi
  post_retire_roi := p.post_retire_roi.getD cur.post_retire_roi

/-- `Object.values(details).reduce((a, b) => a + b, 0)` over the ten
essential expense fields. -/
def sumEssentialDetails (e : EssentialExpenses) : ℚ :=
  e.house_rent + e.maintenance + e.property_tax + e.utilities + e.groceries +
    e.transportation + e.medical_expenses + e.children_school_fees +
    e.insurance_premiums + e.other

/-- `Object.values(details).reduce((a, b) => a + b, 0)` over the five
lifestyle expense fields. -/
def sumLifestyleDetails (l : LifestyleExpenses) : ℚ :=
  l.maid_expense + l.shopping + l.travel + l.dining_entertainment + l.other

/-- The all-zero default essential details object used when none are stored. -/
def zeroEssentialDetails : EssentialExpenses where
  house_rent := 0
  maintenance := 0
  property_tax := 0
  utilities := 0
  groceries := 0
  transportation := 0
  medical_expenses := 0
  children_school_fees := 0
  insurance_premiums := 0
  other := 0

/-- The all-zero default lifestyle details object used when none are stored. -/
def zeroLifestyleDetails : LifestyleExpenses where
  maid_expense := 0
  shopping := 0
  travel := 0
  dining_entertainment := 0
  other := 0

/-- `recalculateLinkedValues` (lines 559–576): recompute `linked_emis`
from the liabilities and `linked_investments` from the investments by the
source's `reduce((sum, x) => sum + x.f, 0)`, leaving everything else. -/
def recalculateLinkedValues (s : FullState) : FullState :=
  let totalEmi := s.liabilities.foldl (fun sum l => sum + l.emi) 0
  let totalSip := s.assets.investments.foldl (fun sum i => sum + i.monthly_sip) 0
  { s with
    cash_flow :=
      { s.cash_flow with
        outflows :=
          { s.cash_flow.outflows with
            linked_emis := totalEmi
            linked_investments := totalSip } } }

/-- `setProfile` (line 370). -/
def setProfile (p : UserProfile) (s : FullState) : FullState :=
  { s with user_profile := p }

/-- `updatePrimaryUser` (lines 372–377). -/
def updatePrimaryUser (p : PrimaryUserPatch) (s : FullState) : FullState :=
  { s with
    user_profile :=
      { s.user_profile with
        primary := mergePrimaryUser s.user_profile.primary p } }

/-- `setSpouse` (lines 379–381). -/
def setSpouse (sp : Option Spouse) (s : FullState) : FullState :=
  { s with user_profile := { s.user_profile with spouse := sp } }

/-- `addFamilyMember` (lines 383–388). -/
def addFamilyMember (m : FamilyMember) (fresh : String) (s : FullState) :
    FullState :=
  { s with
    user_profile :=
      { s.user_profile with
        family_members :=
          s.user_profile.family_members ++
            [{ m with id := presentIdStr m.id fresh }] } }

/-- `removeFamilyMember` (lines 390–395). -/
def removeFamilyMember (i : String) (s : FullState) : FullState :=
  { s with
    user_profile :=
      { s.user_profile with
        family_members :=
          s.user_profile.family_members.filter (fun m => m.id ≠ i) } }

/-- `addGoal` (lines 398–400). -/
def addGoal (g : Goal) (fresh : String) (s : FullState) : FullState :=
  { s with goals := s.goals ++ [{ g with id := presentIdStr g.id fresh }] }

/-- `updateGoal` (lines 402–404). -/
def updateGoal (i : String) (p : GoalPatch) (s : FullState) : FullState :=
  { s with goals := s.goals.map (fun g => if g.id = i then mergeGoal g p else g) }

/-- `removeGoal` (lines 406–408). -/
def removeGoal (i : String) (s : FullState) : FullState :=
  { s with goals := s.goals.filter (fun g => g.id ≠ i) }

/-- `addRealEstate` (lines 411–416). -/
def addRealEstate (a : RealEstateAsset) (fresh : String) (s : FullState) :
    FullState :=
  { s with
    assets :=
      { s.assets with
        real_estate :=
          s.assets.real_estate ++ [{ a with id := some (presentId a.id fresh) }] } }

/-- `removeRealEstate` (lines 418–423). -/
def removeRealEstate (i : String) (s : FullState) : FullState :=
  { s with
    assets :=
      { s.assets with
        real_estate := s.assets.real_estate.filter (fun a => a.id ≠ some i) } }

/-- `addBankAccount` (lines 425–430). -/
def addBankAccount (a : BankAccount) (fresh : String) (s : FullState) :
    FullState :=
  { s with
    assets :=
      { s.assets with
        bank_accounts :=
          s.assets.bank_accounts ++ [{ a with id := some (presentId a.id fresh) }] } }

/-- `removeBankAccount` (lines 432–437). -/
def removeBankAccount (i : String) (s : FullState) : FullState :=
  { s with
    assets :=
      { s.assets with
        bank_accounts := s.assets.bank_accounts.filter (fun a => a.id ≠ some i) } }

/-- `addInvestment` (lines 439–448): appends, then auto-updates the linked
values via `recalculateLinkedValues`. -/
def addInvestment (inv : InvestmentAsset) (fresh : String) (s : FullState) :
    FullState :=
  recalculateLinkedValues
    { s with
      assets :=
        { s.assets with
          investments :=
            s.assets.investments ++
              [{ inv with id := some (presentId inv.id fresh) }] } }

/-- `removeInvestment` (lines 450–458): filters, then recalculates. -/
def removeInvestment (i : String) (s : FullState) : FullState :=
  recalculateLinkedValues
    { s with
      assets :=
        { s.assets with
          investments := s.assets.investments.filter (fun a => a.id ≠ some i) } }

/-- `addInsurancePolicy` (lines 460–465). -/
def addInsurancePolicy (p : InsurancePolicy) (fresh : String) (s : FullState) :
    FullState :=
  { s with
    assets :=
      { s.assets with
        insurance_policies :=
          s.assets.insurance_policies ++
            [{ p with id := some (presentId p.id fresh) }] } }

/-- `removeInsurancePolicy` (lines 467–472). -/
def removeInsurancePolicy (i : String) (s : FullState) : FullState :=
  { s with
    assets :=
      { s.assets with
        insurance_policies :=
          s.assets.insurance_policies.filter (fun p => p.id ≠ some i) } }

/-- `updateLiquidCash` (lines 474–476). -/
def updateLiquidCash (amount : ℚ) (s : FullState) : FullState :=
  { s with assets := { s.assets with liquid_cash := amount } }

/-- `addLiability` (lines 479–485): appends, then recalculates. -/
def addLiability (l : Liability) (fresh : String) (s : FullState) : FullState :=
  recalculateLinkedValues
    { s with
      liabilities := s.liabilities ++ [{ l with id := some (presentId l.id fresh) }] }

/-- `removeLiability` (lines 487–492): filters, then recalculates. -/
def removeLiability (i : String) (s : FullState) : FullState :=
  recalculateLinkedValues
    { s with liabilities := s.liabilities.filter (fun l => l.id ≠ some i) }

/-- `updateCashFlow` (lines 495–497): shallow merge at the `cash_flow`
level — a supplied `outflows` object replaces the whole stored one. -/
def updateCashFlow (p : CashFlowQPatch) (s : FullState) : FullState :=
  { s with cash_flow := mergeCashFlow s.cash_flow p }

/-- `updateInflows` (lines 499–504). -/
def updateInflows (p : InflowsPatch) (s : FullState) : FullState :=
  { s with
    cash_flow :=
      { s.cash_flow with inflows := mergeInflows s.cash_flow.inflows p } }

/-- `updateOutflows` (lines 506–511): shallow merge of a `Partial<Outflows>`
into the outflows — the patch may carry any `Outflows` key, including
`linked_emis` and `linked_investments`. -/
def updateOutflows (p : OutflowsPatch) (s : FullState) : FullState :=
  { s with
    cash_flow :=
      { s.cash_flow with outflows := mergeOutflows s.cash_flow.outflows p } }

/-- `updateEssentialDetails` (lines 513–532): merge the patch into the
stored details (all-zero defaults when none), store the merged object and
overwrite the `essential` lump total with the sum of its ten fields. -/
def updateEssentialDetails (p : EssentialExpensesPatch) (s : FullState) :
    FullState :=
  let currentDetails :=
    s.cash_flow.outflows.essential_details.getD zeroEssentialDetails
  let newDetails := mergeEssentialDetails currentDetails p
  { s with
    cash_flow :=
      { s.cash_flow with
        outflows :=
          { s.cash_flow.outflows with
            essential := sumEssentialDetails newDetails
            essential_details := some newDetails } } }

/-- `updateLifestyleDetails` (lines 534–551): the same over the five
lifestyle fields. -/
def updateLifestyleDetails (p : LifestyleExpensesPatch) (s : FullState) :
    FullState :=
  let currentDetails :=
    s.cash_flow.outflows.lifestyle_details.getD zeroLifestyleDetails
  let newDetails := mergeLifestyleDetails currentDetails p
  { s with
    cash_flow :=
      { s.cash_flow with
        outflows :=
          { s.cash_flow.outflows with
            lifestyle := sumLifestyleDetails newDetails
            lifestyle_details := some newDetails } } }

/-- `updateAssumptions` (lines 554–556). -/
def updateAssumptions (p : AssumptionsPatch) (s : FullState) : FullState :=
  { s with assumptions := mergeAssumptions s.assumptions p }

/-- `reset` (line 590). -/
def resetStore (_s : FullState) : FullState :=
  initialState

/-! ## Linked-field invariant and the store's operation language -/

/-- The cross-section linkage contract: `linked_emis` is the sum of the
liabilities' EMIs and `linked_investments` the sum of the investments'
monthly SIPs. -/
def linkedInvariant (s : FullState) : Prop :=
  s.cash_flow.outflows.linked_emis = (s.liabilities.map Liability.emi).sum ∧
    s.cash_flow.outflows.linked_investments =
      (s.assets.investments.map InvestmentAsset.monthly_sip).sum

/-- The store's public mutation actions, except `updateCashFlow` and
`updateOutflows` (modelled above as standalone functions), whose shallow
merges can write the outflows object — and hence the linked fields —
directly. -/
inductive Action where
  | setProfile (p : UserProfile)
  | updatePrimaryUser (p : PrimaryUserPatch)
  | setSpouse (sp : Option Spouse)
  | addFamilyMember (m : FamilyMember) (fresh : String)
  | removeFamilyMember (i : String)
  | addGoal (g : Goal) (fresh : String)
  | updateGoal (i : String) (p : GoalPatch)
  | removeGoal (i : String)
  | addRealEstate (a : RealEstateAsset) (fresh : String)
  | removeRealEstate (i : String)
  | addBankAccount (a : BankAccount) (fresh : String)
  | removeBankAccount (i : String)
  | addInvestment (inv : InvestmentAsset) (fresh : String)
  | removeInvestment (i : String)
  | addInsurancePolicy (p : InsurancePolicy) (fresh : String)
  | removeInsurancePolicy (i : String)
  | updateLiquidCash (amount : ℚ)
  | addLiability (l : Liability) (fresh : String)
  | removeLiability (i : String)
  | updateInflows (p : InflowsPatch)
  | updateEssentialDetails (p : EssentialExpensesPatch)
  | updateLifestyleDetails (p : LifestyleExpensesPatch)
  | updateAssumptions (p : AssumptionsPatch)
  | recalculateLinkedValues
  | reset

/-- Dispatch an `Action` to its store function. -/
def applyAction (a : Action) (s : FullState) : FullState :=
  match a with
  | .setProfile p => setProfile p s
  | .updatePrimaryUser p => updatePrimaryUser p s
  | .setSpouse sp => setSpouse sp s
  | .addFamilyMember m fresh => addFamilyMember m fresh s
  | .removeFamilyMember i => removeFamilyMember i s
  | .addGoal g fresh => addGoal g fresh s
  | .updateGoal i p => updateGoal i p s
  | .removeGoal i => removeGoal i s
  | .addRealEstate a fresh => addRealEstate a fresh s
  | .removeRealEstate i => removeRealEstate i s
  | .addBankAccount a fresh => addBankAccount a fresh s
  | .removeBankAccount i => removeBankAccount i s
  | .addInvestment inv fresh => addInvestment inv fresh s
  | .removeInvestment i => removeInvestment i s
  | .addInsurancePolicy p fresh => addInsurancePolicy p fresh s
  | .removeInsurancePolicy i => removeInsurancePolicy i s
  | .updateLiquidCash amount => updateLiquidCash amount s
  | .addLiability l fresh => addLiability l fresh s
  | .removeLiability i => removeLiability i s
  | .updateInflows p => updateInflows p s
  | .updateEssentialDetails p => updateEssentialDetails p s
  | .updateLifestyleDetails p => updateLifestyleDetails p s
  | .updateAssumptions p => updateAssumptions p s
  | .recalculateLinkedValues => recalculateLinkedValues s
  | .reset => resetStore s

/-- Run a sequence of store actions from the store's initial state. -/
def runStore (as : List Action) : FullState :=
  as.foldl (fun s a => applyAction a s) initialState

/-! ## Helper lemmas -/

/-- The source's `reduce((sum, x) => sum + f(x), 0)` fold is the sum of the
mapped list. -/
theorem foldl_add_eq_sum_map {α : Type} (f : α → ℚ) (xs : List α) (a : ℚ) :
    xs.foldl (fun sum x => sum + f x) a = a + (xs.map f).sum := by
  induction xs generalizing a with
  | nil => simp
  | cons x xs ih => rw [List.foldl_cons, ih, List.map_cons, List.sum_cons]; ring

/-- After `recalculateLinkedValues` the two linked fields are the table sums. -/
theorem linked_after_recalculate (s : FullState) :
    (recalculateLinkedValues s).cash_flow.outflows.linked_emis =
        (s.liabilities.map Liability.emi).sum ∧
      (recalculateLinkedValues s).cash_flow.outflows.linked_investments =
        (s.assets.investments.map InvestmentAsset.monthly_sip).sum := by
  constructor <;> simp [recalculateLinkedValues, foldl_add_eq_sum_map]

/-- `recalculateLinkedValues` establishes the linkage invariant. -/
theorem linkedInvariant_recalculate (s : FullState) :
    linkedInvariant (recalculateLinkedValues s) :=
  linked_after_recalculate s

/-- The initial store state satisfies the linkage invariant. -/
theorem linkedInvariant_initialState : linkedInvariant initialState :=
  ⟨rfl, rfl⟩

/-- Each action of the operation language preserves the linkage invariant. -/
theorem applyAction_preserves_linkedInvariant (a : Action) (s : FullState)
    (h : linkedInvariant s) : linkedInvariant (applyAction a s) := by
  cases a <;>
    first
      | exact linkedInvariant_recalculate _
      | exact linkedInvariant_initialState
      | exact h

/-- Folding any action list preserves the linkage invariant. -/
theorem foldl_actions_preserve_linkedInvariant (as : List Action)
    (s : FullState) (h : linkedInvariant s) :
    linkedInvariant (as.foldl (fun s a => applyAction a s) s) := by
  induction as generalizing s with
  | nil => exact h
  | cons a as ih =>
      exact ih _ (applyAction_preserves_linkedInvariant a s h)

/-! ## Claim theorems -/

/-- C1: for every validated snapshot (strictly positive `TotalInflow`),
the five dashboard ratios — each amount divided by `TotalInflow` times
100, with `Leftover = TotalInflow − TotalOutflows` — sum to 100.00 within
the 0.01 tolerance, including when the leftover is negative. -/
theorem ratios_sum_to_100 (total_inflow essential lifestyle emis investments : ℚ)
    (h : 0 < total_inflow) :
    |savingsRatePct
        (leftover total_inflow (totalOutflows essential lifestyle emis investments))
        total_inflow +
      emiBurdenPct emis total_inflow + investmentRatePct investments total_inflow +
      essentialExpensePct essential total_inflow +
      lifestyleExpensePct lifestyle total_inflow - 100| ≤ 1/100 := by
  have hne : total_inflow ≠ 0 := ne_of_gt h
  have hsum : savingsRatePct
        (leftover total_inflow (totalOutflows essential lifestyle emis investments))
        total_inflow +
      emiBurdenPct emis total_inflow + investmentRatePct investments total_inflow +
      essentialExpensePct essential total_inflow +
      lifestyleExpensePct lifestyle total_inflow = 100 := by
    simp only [savingsRatePct, emiBurdenPct, investmentRatePct,
      essentialExpensePct, lifestyleExpensePct, leftover, totalOutflows]
    field_simp
    ring
  rw [hsum]
  norm_num

/-- Witness for C1 at a concrete snapshot with a negative leftover
(inflow 100, essential 80, lifestyle 50, EMIs 20, investments 10,
leftover −60). -/
theorem ratios_sum_to_100_witness :
    (0:ℚ) < 100 ∧
      |savingsRatePct (leftover 100 (totalOutflows 80 50 20 10)) 100 +
        emiBurdenPct 20 100 + investmentRatePct 10 100 +
        essentialExpensePct 80 100 + lifestyleExpensePct 50 100 - 100| ≤ 1/100 :=
  ⟨by norm_num, ratios_sum_to_100 100 80 50 20 10 (by norm_num)⟩

/-- C2 counterexample: the linked fields can be set independently of the
liability and investment tables — one public `updateOutflows` call on the
(reachable) initial state sets `linked_emis` to 999 while the liability
table is empty, violating the linkage invariant. -/
theorem linked_fields_independently_editable :
    ¬ linkedInvariant (updateOutflows { linked_emis := some 999 } initialState) := by
  intro h
  have h1 := h.1
  simp [updateOutflows, mergeOutflows, initialState, linkedInvariant] at h1

/-- C2 (amended): in every store state reachable from the initial state
through the public mutation actions other than `updateOutflows` and
`updateCashFlow`, `linked_emis` equals the sum of the liabilities' EMIs
and `linked_investments` the sum of the investments' monthly SIPs; the
shallow-merging `updateOutflows` (and `updateCashFlow`), however, can set
the two linked fields to values independent of the tables. -/
theorem linked_invariant_reachable (as : List Action) :
    linkedInvariant (runStore as) :=
  foldl_actions_preserve_linkedInvariant as initialState linkedInvariant_initialState

/-- C3: a single `recalculateLinkedValues` call makes `linked_emis` the
sum of the liabilities' EMIs and `linked_investments` the sum of the
investments' monthly SIPs, whatever the prior state; in particular, with
liability EMIs 35000 and 18000 and a stale `linked_emis` of 12345, the
field equals 53000 afterwards. -/
theorem recalculateLinkedValues_correct :
    (∀ s : FullState,
      (recalculateLinkedValues s).cash_flow.outflows.linked_emis =
          (s.liabilities.map Liability.emi).sum ∧
        (recalculateLinkedValues s).cash_flow.outflows.linked_investments =
          (s.assets.investments.map InvestmentAsset.monthly_sip).sum) ∧
    (recalculateLinkedValues
      { initialState with
        liabilities :=
          [{ type := .Home, outstanding := 2000000, emi := 35000,
             interest_rate := 9/100, tenure_months := 240 },
           { type := .Car, outstanding := 500000, emi := 18000,
             interest_rate := 10/100, tenure_months := 60 }]
        cash_flow :=
          { initialState.cash_flow with
            outflows :=
              { initialState.cash_flow.outflows with
                linked_emis := 12345 } } }).cash_flow.outflows.linked_emis
      = 53000 :=
  ⟨fun s => linked_after_recalculate s, by
    rw [(linked_after_recalculate _).1]
    norm_num [List.map_cons, List.map_nil, List.sum_cons, List.sum_nil]⟩

/-- C4: `calculate_corpus_required` is the straight-line product
`MonthlyExpense × PensionMonths` when the real rate is zero and the
annuity-immediate present value
`MonthlyExpense × (1 − (1+r)^(−n)) / r` otherwise. -/
theorem corpus_required_cases (monthly_expense : ℚ) (pension_months : ℤ)
    (real_rate : ℚ) :
    (real_rate = 0 →
      calculate_corpus_required monthly_expense pension_months real_rate =
        monthly_expense * (pension_months : ℚ)) ∧
    (real_rate ≠ 0 →
      calculate_corpus_required monthly_expense pension_months real_rate =
        monthly_expense *
          ((1 - (1 + real_rate) ^ (-pension_months)) / real_rate)) := by
  constructor <;> intro h <;> simp [calculate_corpus_required, h]

/-- Witness for C4 at monthly expense 50000, 240 pension months, real
rates 0 and 1/100. -/
theorem corpus_required_cases_witness :
    calculate_corpus_required 50000 240 0 = 50000 * ((240 : ℤ) : ℚ) ∧
      (1:ℚ)/100 ≠ 0 ∧
      calculate_corpus_required 50000 240 (1/100) =
        50000 * ((1 - (1 + 1/100) ^ (-(240:ℤ))) / (1/100)) :=
  ⟨(corpus_required_cases 50000 240 0).1 rfl, by norm_num,
    (corpus_required_cases 50000 240 (1/100)).2 (by norm_num)⟩

/-- C5: `calculate_extra_sip_required` is 0 when the gap or the horizon
is non-positive; otherwise, with monthly rate `r = ROI/12`, it is the
annuity-due PMT `(G·r) / (((1+r)^n − 1)·(1+r))` when `r > 0` and `G / n`
when `r = 0`. -/
theorem extra_sip_required_cases (retirement_gap : ℚ) (months_to_retire : ℤ)
    (annual_roi : ℚ) :
    (retirement_gap ≤ 0 ∨ months_to_retire ≤ 0 →
      calculate_extra_sip_required retirement_gap months_to_retire annual_roi = 0) ∧
    (0 < retirement_gap → 0 < months_to_retire →
      (0 < annual_roi / 12 →
        calculate_extra_sip_required retirement_gap months_to_retire annual_roi =
          (retirement_gap * (annual_roi / 12)) /
            (((1 + annual_roi / 12) ^ months_to_retire - 1) *
              (1 + annual_roi / 12))) ∧
      (annual_roi / 12 = 0 →
        calculate_extra_sip_required retirement_gap months_to_retire annual_roi =
          retirement_gap / (months_to_retire : ℚ))) := by
  constructor
  · intro h
    simp [calculate_extra_sip_required, h]
  · intro hg hn
    have hcond : ¬ (retirement_gap ≤ 0 ∨ months_to_retire ≤ 0) := by
      push_neg
      exact ⟨hg, hn⟩
    constructor <;> intro hr <;>
      simp [calculate_extra_sip_required, hcond, hr]

/-- Witness for C5: a negative gap yields 0; gap 1, one month, annual
ROI 12 (monthly rate 1) hits the positive-rate branch; annual ROI 0 hits
the zero-rate branch. -/
theorem extra_sip_required_cases_witness :
    calculate_extra_sip_required (-5) 10 (12/100) = 0 ∧
      calculate_extra_sip_required 1 1 12 =
        (1 * ((12:ℚ) / 12)) /
          (((1 + (12:ℚ) / 12) ^ (1:ℤ) - 1) * (1 + (12:ℚ) / 12)) ∧
      calculate_extra_sip_required 1 1 0 = 1 / (((1:ℤ) : ℚ)) :=
  ⟨(extra_sip_required_cases (-5) 10 (12/100)).1 (Or.inl (by norm_num)),
    ((extra_sip_required_cases 1 1 12).2 (by norm_num) (by norm_num)).1
      (by norm_num),
    ((extra_sip_required_cases 1 1 0).2 (by norm_num) (by norm_num)).2
      (by norm_num)⟩

/-- C6 counterexample: at a birth date 400 days before "today", the
frontend `calculateAge` returns the floored value 1, which differs from
the fractional `(today − birth_date)/365.25 = 1600/1461` of the TRS
`calculate_age` — so the computed current age is not everywhere the
unfloored quotient. -/
theorem frontend_age_floored_cex :
    ((calculateAge (400 * 86400000) 0 : ℤ) : ℚ) ≠ calculate_age 400 0 := by
  unfold calculateAge calculate_age
  norm_num

/-- C6 (amended): the TRS `calculate_age` returns the fractional quotient
`(today − birth_date) in days / 365.25`, not floored; the frontend
`FamilyDetailsForm.calculateAge` returns the floor of that same quotient
(an integer age). -/
theorem age_functions_spec (today dob : ℤ) :
    calculate_age today dob = ((today - dob : ℤ) : ℚ) / 365.25 ∧
      calculateAge (today * 86400000) (dob * 86400000) =
        ⌊calculate_age today dob⌋ := by
  refine ⟨rfl, ?_⟩
  unfold calculateAge calculate_age
  congr 1
  push_cast
  rw [div_eq_div_iff (by norm_num) (by norm_num)]
  ring

/-- C7 counterexample: for a DATE goal whose target date equals the
evaluation date, the resolved years-to-goal is 0, the §4.2 rule flags it
`PAST_DUE` (excluding it from corpus/SIP arithmetic), and the TRS logical
validation 6 (`TargetDate > TODAY`) rejects it — it is not treated as
due-now. -/
theorem goal_due_today_cex :
    yearsToGoalDate 20200 20200 = 0 ∧
      pastDue (yearsToGoalDate 20200 20200) = true ∧
      dateGoalValid 20200 20200 = false := by
  refine ⟨?_, ?_, ?_⟩ <;>
    norm_num [yearsToGoalDate, pastDue, dateGoalValid]

/-- C7 (amended): a DATE goal with `target_date == today` resolves to
`years_to_goal == 0`, is flagged `PAST_DUE` by the years-to-goal ≤ 0 rule,
and fails the TRS validation `TargetDate > TODAY`, for every evaluation
date. -/
theorem goal_due_today_flagged (d : ℤ) :
    yearsToGoalDate d d = 0 ∧ pastDue (yearsToGoalDate d d) = true ∧
      dateGoalValid d d = false := by
  have h0 : yearsToGoalDate d d = 0 := by simp [yearsToGoalDate]
  refine ⟨h0, ?_, ?_⟩
  · rw [h0]
    simp [pastDue]
  · simp [dateGoalValid]

/-- C8: `calculate_future_cost` is `cost × (1+rate)^years` for every
cost, rate and year count, and the documented worked example
`FutureCost(1 000 000, 0.06, 12)` has integer part 2 012 196. -/
theorem future_cost_formula_and_example :
    (∀ (cost rate : ℚ) (years : ℕ),
        calculate_future_cost cost rate years = cost * (1 + rate) ^ years) ∧
      2012196 ≤ calculate_future_cost 1000000 (6/100) 12 ∧
      calculate_future_cost 1000000 (6/100) 12 < 2012197 := by
  refine ⟨fun cost rate years => rfl, ?_, ?_⟩ <;>
    norm_num [calculate_future_cost]

/-- C9: `recalculateLinkedValues` changes at most the two linked outflow
fields — the profile, goals, assets, liabilities, assumptions, inflows
and every other outflows field survive the call unchanged. -/
theorem recalculateLinkedValues_frame (s : FullState) :
    (recalculateLinkedValues s).user_profile = s.user_profile ∧
      (recalculateLinkedValues s).goals = s.goals ∧
      (recalculateLinkedValues s).assets = s.assets ∧
      (recalculateLinkedValues s).liabilities = s.liabilities ∧
      (recalculateLinkedValues s).assumptions = s.assumptions ∧
      (recalculateLinkedValues s).cash_flow.inflows = s.cash_flow.inflows ∧
      (recalculateLinkedValues s).cash_flow.outflows.essential =
        s.cash_flow.outflows.essential ∧
      (recalculateLinkedValues s).cash_flow.outflows.lifestyle =
        s.cash_flow.outflows.lifestyle ∧
      (recalculateLinkedValues s).cash_flow.outflows.essential_details =
        s.cash_flow.outflows.essential_details ∧
      (recalculateLinkedValues s).cash_flow.outflows.lifestyle_details =
        s.cash_flow.outflows.lifestyle_details ∧
      (recalculateLinkedValues s).cash_flow.outflows.investment_details =
        s.cash_flow.outflows.investment_details :=
  ⟨rfl, rfl, rfl, rfl, rfl, rfl, rfl, rfl, rfl, rfl, rfl⟩

/-- C10: `updateEssentialDetails` stores the field-by-field merge of the
previous details (all-zero defaults when none) with the patch and sets the
`essential` lump total to the sum of the merged object's ten fields;
`updateLifestyleDetails` does the same over its five fields; when no
details were stored, the new lump total is the sum of exactly the
supplied fields. -/
theorem update_details_sets_sum (s : FullState) (p : EssentialExpensesPatch)
    (q : LifestyleExpensesPatch) :
    ((updateEssentialDetails p s).cash_flow.outflows.essential =
        sumEssentialDetails
          (mergeEssentialDetails
            (s.cash_flow.outflows.essential_details.getD zeroEssentialDetails) p) ∧
      (updateEssentialDetails p s).cash_flow.outflows.essential_details =
        some (mergeEssentialDetails
          (s.cash_flow.outflows.essential_details.getD zeroEssentialDetails) p)) ∧
    ((updateLifestyleDetails q s).cash_flow.outflows.lifestyle =
        sumLifestyleDetails
          (mergeLifestyleDetails
            (s.cash_flow.outflows.lifestyle_details.getD zeroLifestyleDetails) q) ∧
      (updateLifestyleDetails q s).cash_flow.outflows.lifestyle_details =
        some (mergeLifestyleDetails
          (s.cash_flow.outflows.lifestyle_details.getD zeroLifestyleDetails) q)) ∧
    (s.cash_flow.outflows.essential_details = none →
      (updateEssentialDetails p s).cash_flow.outflows.essential =
        p.house_rent.getD 0 + p.maintenance.getD 0 + p.property_tax.getD 0 +
          p.utilities.getD 0 + p.groceries.getD 0 + p.transportation.getD 0 +
          p.medical_expenses.getD 0 + p.children_school_fees.getD 0 +
          p.insurance_premiums.getD 0 + p.other.getD 0) ∧
    (s.cash_flow.outflows.lifestyle_details = none →
      (updateLifestyleDetails q s).cash_flow.outflows.lifestyle =
        q.maid_expense.getD 0 + q.shopping.getD 0 + q.travel.getD 0 +
          q.dining_entertainment.getD 0 + q.other.getD 0) := by
  refine ⟨⟨rfl, rfl⟩, ⟨rfl, rfl⟩, fun h => ?_, fun h => ?_⟩ <;>
    simp [updateEssentialDetails, updateLifestyleDetails, h,
      mergeEssentialDetails, mergeLifestyleDetails,
      zeroEssentialDetails, zeroLifestyleDetails,
      sumEssentialDetails, sumLifestyleDetails]

/-- Witness for C10: in the initial state no details are stored; setting
house rent 300 and groceries 200 yields an essential lump total of 500,
replacing the previous lump value. -/
theorem update_details_sets_sum_witness :
    initialState.cash_flow.outflows.essential_details = none ∧
      (updateEssentialDetails
        { house_rent := some 300, groceries := some 200 }
        initialState).cash_flow.outflows.essential = 500 := by
  refine ⟨rfl, ?_⟩
  have h :=
    (update_details_sets_sum initialState
      { house_rent := some 300, groceries := some 200 }
      { travel := some 100 }).2.2.1 rfl
  rw [h]
  norm_num

end FinTech
